import Mathlib

/-!
Shallow embedding of the crypto-trader agent runtime (backend/src):
the grid strategy worker (`strategies/grid_strategy.py`,
`strategies/base_strategy.py`), the agent manager
(`core/agent_manager.py`), the persistence CRUD layer
(`persistence/crud.py`) and the Redis pub/sub communication bus
(`communication/redis_pubsub.py`).

Modelling conventions:
* Python `Decimal` values are embedded as exact rationals `ℚ`
  (`Decimal` addition/subtraction/multiplication is exact; division is
  rounded to 28 significant digits, a refinement we do not model since
  no claim depends on it).
* Python dictionaries become association lists `List (String × _)`
  with first-match lookup (dict keys are unique in the modelled code).
* Fallible code returns `Except PyErr _`; an uncaught Python exception
  is an `.error`.
* Remote exchange calls are modelled by a deterministic environment
  record `ExchangeEnv` supplied as a parameter; the per-worker trading
  symbol is fixed, so it is omitted from the environment's call
  signatures.
-/

/-- Python run-time values, classified by how numeric conversion treats
them: `vnum q` is any value that `Decimal(str v)` converts successfully
(ints, floats, Decimals, numeric strings), `vstr s` is a string value on
which numeric conversion raises. -/
inductive PyVal where
  | vstr : String → PyVal
  | vnum : ℚ → PyVal
deriving DecidableEq, Repr

/-- Python exceptions raised by the embedded code. `strategyConfigError`
models the repository's `StrategyConfigError` (a `ValueError`
subclass). -/
inductive PyErr where
  | typeError : String → PyErr
  | nameError : String → PyErr
  | valueError : String → PyErr
  | strategyConfigError : String → PyErr
  | connectionError : String → PyErr
deriving DecidableEq, Repr

/-- Dictionary lookup, `config.get(k)` / `k in config`: first pair whose
key matches. -/
def lookupCfg (c : List (String × PyVal)) (k : String) : Option PyVal :=
  (c.find? (fun kv => kv.1 == k)).map (fun kv => kv.2)

/-- Conversion `Decimal(str(v))`: succeeds exactly on numeric values
(numeric strings are classified as `vnum` by convention). -/
def pyDecimal : PyVal → Option ℚ
  | .vnum q => some q
  | .vstr _ => none

/-- Truncation toward zero, the rounding of Python `int(x)` on numeric
values and of `Decimal.quantize(..., ROUND_DOWN)`. -/
def ratTrunc (q : ℚ) : Int :=
  if 0 ≤ q then Int.floor q else Int.ceil q

/-- Conversion `int(v)`: truncates numeric values toward zero, raises on
non-numeric values. -/
def pyInt : PyVal → Option Int
  | .vnum q => some (ratTrunc q)
  | .vstr _ => none

namespace GridStrategy

/-- Validated grid parameters set on the worker by
`GridStrategy._validate_and_set_config` (grid_strategy.py:49-75):
`symbol` is stored raw from the config, the numeric fields are the
converted values, `step_size` and `grid_lines` are computed at the end
of validation. -/
structure GridParams where
  symbol : PyVal
  lower_price : ℚ
  upper_price : ℚ
  grid_levels : Int
  order_amount_usd : ℚ
  step_size : ℚ
  grid_lines : List ℚ
deriving DecidableEq, Repr

/-- The `required_keys` list of `_validate_and_set_config`
(grid_strategy.py:51). -/
def requiredKeys : List String :=
  ["symbol", "lower_price", "upper_price", "grid_levels", "order_amount_usd"]

/-- Embedding of `GridStrategy._validate_and_set_config`
(grid_strategy.py:49-75). The source first loops over `required_keys`
raising on a missing key (in list order), then converts
`lower_price`/`upper_price`/`order_amount_usd` with `Decimal(str(.))`
and `grid_levels` with `int(.)` inside one `try` (any conversion
failure raises the same error), then checks `lower_price >=
upper_price`, `grid_levels < 2`, `order_amount_usd <= 0`, and finally
computes `step_size = (upper - lower) / Decimal(grid_levels - 1)` and
`grid_lines = [lower + i * step for i in range(grid_levels)]`.
Note: the source never checks that `symbol` is non-empty, nor that
`lower_price > 0`. -/
def validateAndSetConfig (c : List (String × PyVal)) : Except PyErr GridParams :=
  match lookupCfg c "symbol" with
  | none => .error (.strategyConfigError "Missing required config key: symbol")
  | some symbolVal =>
  match lookupCfg c "lower_price" with
  | none => .error (.strategyConfigError "Missing required config key: lower_price")
  | some lowerVal =>
  match lookupCfg c "upper_price" with
  | none => .error (.strategyConfigError "Missing required config key: upper_price")
  | some upperVal =>
  match lookupCfg c "grid_levels" with
  | none => .error (.strategyConfigError "Missing required config key: grid_levels")
  | some levelsVal =>
  match lookupCfg c "order_amount_usd" with
  | none => .error (.strategyConfigError "Missing required config key: order_amount_usd")
  | some amountVal =>
  match pyDecimal lowerVal, pyDecimal upperVal, pyInt levelsVal, pyDecimal amountVal with
  | some lower, some upper, some levels, some amount =>
    if lower ≥ upper then
      .error (.strategyConfigError "lower_price must be less than upper_price")
    else if levels < 2 then
      .error (.strategyConfigError "grid_levels must be at least 2")
    else if amount ≤ 0 then
      .error (.strategyConfigError "order_amount_usd must be positive")
    else
      let step : ℚ := (upper - lower) / ((levels : ℚ) - 1)
      .ok { symbol := symbolVal
            lower_price := lower
            upper_price := upper
            grid_levels := levels
            order_amount_usd := amount
            step_size := step
            grid_lines := (List.range levels.toNat).map (fun (i : ℕ) => lower + (i : ℚ) * step) }
  | _, _, _, _ => .error (.strategyConfigError "Invalid numeric config value")

end GridStrategy

/-- Largest element of a list of rationals (`max(xs)` over a non-empty
list), `none` on the empty list. -/
def listMax : List ℚ → Option ℚ
  | [] => none
  | x :: xs => some (xs.foldl max x)

/-- Smallest element of a list of rationals (`min(xs)` over a non-empty
list), `none` on the empty list. -/
def listMin : List ℚ → Option ℚ
  | [] => none
  | x :: xs => some (xs.foldl min x)

lemma foldl_max_mem_and_bound (x : ℚ) (xs : List ℚ) :
    xs.foldl max x ∈ x :: xs ∧ ∀ y ∈ x :: xs, y ≤ xs.foldl max x := by
  induction xs generalizing x with
  | nil => simp
  | cons z zs ih =>
    obtain ⟨hmem, hbd⟩ := ih (max x z)
    constructor
    · rcases List.mem_cons.1 hmem with h | h
      · rcases max_choice x z with hc | hc <;>
          simp only [List.foldl_cons] <;> rw [h, hc] <;> simp
      · simp [List.foldl_cons, List.mem_cons]
        right; right; exact h
    · intro y hy
      have hxz : max x z ≤ zs.foldl max (max x z) := hbd _ (List.mem_cons_self _ _)
      rcases List.mem_cons.1 hy with h | h
      · subst h
        exact le_trans (le_max_left _ _) hxz
      · rcases List.mem_cons.1 h with h2 | h2
        · subst h2
          exact le_trans (le_max_right _ _) hxz
        · exact hbd _ (List.mem_cons_of_mem _ h2)

lemma foldl_min_mem_and_bound (x : ℚ) (xs : List ℚ) :
    xs.foldl min x ∈ x :: xs ∧ ∀ y ∈ x :: xs, xs.foldl min x ≤ y := by
  induction xs generalizing x with
  | nil => simp
  | cons z zs ih =>
    obtain ⟨hmem, hbd⟩ := ih (min x z)
    constructor
    · rcases List.mem_cons.1 hmem with h | h
      · rcases min_choice x z with hc | hc <;>
          simp only [List.foldl_cons] <;> rw [h, hc] <;> simp
      · simp [List.foldl_cons, List.mem_cons]
        right; right; exact h
    · intro y hy
      have hxz : zs.foldl min (min x z) ≤ min x z := hbd _ (List.mem_cons_self _ _)
      rcases List.mem_cons.1 hy with h | h
      · subst h
        exact le_trans hxz (min_le_left _ _)
      · rcases List.mem_cons.1 h with h2 | h2
        · subst h2
          exact le_trans hxz (min_le_right _ _)
        · exact hbd _ (List.mem_cons_of_mem _ h2)

lemma listMax_spec (l : List ℚ) (m : ℚ) (h : listMax l = some m) :
    m ∈ l ∧ ∀ y ∈ l, y ≤ m := by
  cases l with
  | nil => simp [listMax] at h
  | cons x xs =>
    simp only [listMax, Option.some.injEq] at h
    subst h
    exact foldl_max_mem_and_bound x xs

lemma listMin_spec (l : List ℚ) (m : ℚ) (h : listMin l = some m) :
    m ∈ l ∧ ∀ y ∈ l, m ≤ y := by
  cases l with
  | nil => simp [listMin] at h
  | cons x xs =>
    simp only [listMin, Option.some.injEq] at h
    subst h
    exact foldl_min_mem_and_bound x xs

lemma ap_listMax (a d : ℚ) (N : ℕ) (hN : 1 ≤ N) (hd : 0 ≤ d) :
    listMax ((List.range N).map (fun (i : ℕ) => a + (i : ℚ) * d)) =
      some (a + ((N : ℚ) - 1) * d) := by
  set L := (List.range N).map (fun (i : ℕ) => a + (i : ℚ) * d) with hL
  have htop : a + ((N : ℚ) - 1) * d ∈ L := by
    refine List.mem_map.2 ⟨N - 1, List.mem_range.2 (by omega), ?_⟩
    have hc : ((N - 1 : ℕ) : ℚ) = (N : ℚ) - 1 := by
      rw [Nat.cast_sub hN]
      norm_num
    rw [hc]
  have hbound : ∀ y ∈ L, y ≤ a + ((N : ℚ) - 1) * d := by
    intro y hy
    obtain ⟨i, hi, rfl⟩ := List.mem_map.1 hy
    have hi2 : (i : ℚ) ≤ (N : ℚ) - 1 := by
      have : (i : ℚ) + 1 ≤ (N : ℚ) := by
        exact_mod_cast Nat.succ_le_of_lt (List.mem_range.1 hi)
      linarith
    have := mul_le_mul_of_nonneg_right hi2 hd
    linarith
  have hne : L ≠ [] := by
    simp only [hL, ne_eq, List.map_eq_nil_iff, List.range_eq_nil]
    omega
  obtain ⟨mx, hmx⟩ : ∃ mx, listMax L = some mx := by
    cases hc : L with
    | nil => exact absurd hc hne
    | cons x xs => exact ⟨xs.foldl max x, by simp [listMax]⟩
  obtain ⟨hmem, hub⟩ := listMax_spec L mx hmx
  have : mx = a + ((N : ℚ) - 1) * d :=
    le_antisymm (hbound mx hmem) (hub _ htop)
  rw [hmx, this]

lemma ap_listMin (a d : ℚ) (N : ℕ) (hN : 1 ≤ N) (hd : 0 ≤ d) :
    listMin ((List.range N).map (fun (i : ℕ) => a + (i : ℚ) * d)) = some a := by
  set L := (List.range N).map (fun (i : ℕ) => a + (i : ℚ) * d) with hL
  have hbot : a ∈ L := by
    refine List.mem_map.2 ⟨0, List.mem_range.2 (by omega), by simp⟩
  have hbound : ∀ y ∈ L, a ≤ y := by
    intro y hy
    obtain ⟨i, _, rfl⟩ := List.mem_map.1 hy
    have : 0 ≤ (i : ℚ) * d := mul_nonneg (by positivity) hd
    linarith
  have hne : L ≠ [] := by
    simp only [hL, ne_eq, List.map_eq_nil_iff, List.range_eq_nil]
    omega
  obtain ⟨mn, hmn⟩ : ∃ mn, listMin L = some mn := by
    cases hc : L with
    | nil => exact absurd hc hne
    | cons x xs => exact ⟨xs.foldl min x, by simp [listMin]⟩
  obtain ⟨hmem, hlb⟩ := listMin_spec L mn hmn
  have : mn = a := le_antisymm (hlb _ hbot) (hbound mn hmem)
  rw [hmn, this]

/-- Written from the spec sentence of claim C6 (amended as the code
forces): the set of configurations the validator rejects. A config is
rejected exactly when a required key is missing, a numeric field fails
conversion, `lower_price ≥ upper_price`, `grid_levels < 2`, or
`order_amount_usd ≤ 0`. Empty `symbol` and non-positive `lower_price`
are NOT rejected by the code. -/
def gridConfigRejected (c : List (String × PyVal)) : Bool :=
  match lookupCfg c "symbol", lookupCfg c "lower_price", lookupCfg c "upper_price",
        lookupCfg c "grid_levels", lookupCfg c "order_amount_usd" with
  | some _, some lv, some uv, some gv, some av =>
    match pyDecimal lv, pyDecimal uv, pyInt gv, pyDecimal av with
    | some lower, some upper, some levels, some amount =>
      decide (lower ≥ upper) || decide (levels < 2) || decide (amount ≤ 0)
    | _, _, _, _ => true
  | _, _, _, _, _ => true

/-- Concrete configuration with an empty symbol and a negative (hence
non-positive) lower price, which the claim says validation must
reject. -/
def cfgEmptySymbolNegLower : List (String × PyVal) :=
  [("symbol", .vstr ""), ("lower_price", .vnum (-2)), ("upper_price", .vnum 1),
   ("grid_levels", .vnum 2), ("order_amount_usd", .vnum 1)]

/-- Claim C6, counterexample: a grid configuration with an empty
`symbol` and `lower_price = -2 ≤ 0` (with `upper_price = 1 >
lower_price`, `grid_levels = 2`, `order_amount_usd = 1`) is accepted by
`GridStrategy._validate_and_set_config` without raising, contradicting
the claim that validation raises for every config with an empty symbol
or `lower_price ≤ 0`. -/
theorem claim_C6_counterexample :
    (GridStrategy.validateAndSetConfig cfgEmptySymbolNegLower).isOk = true ∧
    lookupCfg cfgEmptySymbolNegLower "symbol" = some (.vstr "") ∧
    lookupCfg cfgEmptySymbolNegLower "lower_price" = some (.vnum (-2)) := by
  refine ⟨?_, rfl, rfl⟩
  rfl

/-- Claim C6, amended: grid configuration validation raises exactly
when a required key is missing, a required value fails numeric
conversion, `lower_price ≥ upper_price`, `grid_levels < 2`, or
`order_amount_usd ≤ 0`; it performs no check on symbol emptiness or
lower-price positivity. -/
theorem claim_C6_validation_exact (c : List (String × PyVal)) :
    (GridStrategy.validateAndSetConfig c).isOk = !(gridConfigRejected c) := by
  unfold GridStrategy.validateAndSetConfig gridConfigRejected
  rcases lookupCfg c "symbol" with _ | sv <;> try rfl
  rcases lookupCfg c "lower_price" with _ | lv <;> try rfl
  rcases lookupCfg c "upper_price" with _ | uv <;> try rfl
  rcases lookupCfg c "grid_levels" with _ | gv <;> try rfl
  rcases lookupCfg c "order_amount_usd" with _ | av <;> try rfl
  dsimp only
  rcases pyDecimal lv with _ | lower <;> try rfl
  rcases pyDecimal uv with _ | upper <;> try rfl
  rcases pyInt gv with _ | levels <;> try rfl
  rcases pyDecimal av with _ | amount <;> try rfl
  dsimp only
  by_cases h1 : lower ≥ upper
  · simp [h1, Except.isOk, Except.toBool]
  · by_cases h2 : levels < 2
    · simp [h1, h2, Except.isOk, Except.toBool]
    · by_cases h3 : amount ≤ 0
      · simp [h1, h2, h3, Except.isOk, Except.toBool]
      · simp [h1, h2, h3, Except.isOk, Except.toBool]

/-- Claim C9: for every accepted grid configuration, the computed grid
satisfies `step = (upper_price - lower_price)/(grid_levels - 1)` and
`grid_lines = [lower_price + i * step for i in 0..grid_levels-1]`;
hence the number of grid lines equals `grid_levels` and
`max(grid_lines) - min(grid_lines) = step * (grid_levels - 1)`. -/
theorem claim_C9_grid_geometry (c : List (String × PyVal))
    (p : GridStrategy.GridParams)
    (h : GridStrategy.validateAndSetConfig c = .ok p) :
    p.step_size = (p.upper_price - p.lower_price) / ((p.grid_levels : ℚ) - 1) ∧
    p.grid_lines =
      (List.range p.grid_levels.toNat).map
        (fun (i : ℕ) => p.lower_price + (i : ℚ) * p.step_size) ∧
    (p.grid_lines.length : Int) = p.grid_levels ∧
    ∃ mx mn, listMax p.grid_lines = some mx ∧ listMin p.grid_lines = some mn ∧
      mx - mn = p.step_size * ((p.grid_levels : ℚ) - 1) := by
  unfold GridStrategy.validateAndSetConfig at h
  repeat' split at h
  all_goals try exact Except.noConfusion h
  rename_i lower upper levels amount heq1 heq2 heq3 heq4 hge hlt hle
  injection h with h
  subst h
  push_neg at hge hlt hle
  dsimp only
  have h2 : (2 : ℤ) ≤ levels := hlt
  have hN1 : 1 ≤ levels.toNat := by omega
  have hl2 : (2 : ℚ) ≤ (levels : ℚ) := by exact_mod_cast h2
  have hd : 0 ≤ (upper - lower) / ((levels : ℚ) - 1) :=
    le_of_lt (div_pos (by linarith) (by linarith))
  have hcast : ((levels.toNat : ℕ) : ℚ) = (levels : ℚ) := by
    have hnn := Int.toNat_of_nonneg (show (0:ℤ) ≤ levels by omega)
    exact_mod_cast hnn
  refine ⟨rfl, rfl, ?_, ?_⟩
  · simp only [List.length_map, List.length_range]
    omega
  · refine ⟨_, _, ap_listMax _ _ _ hN1 hd, ap_listMin _ _ _ hN1 hd, ?_⟩
    rw [hcast]
    ring

/-- Scenario 1 of the spec: the grid configuration
`{symbol=BTCUSDT, lower=60000, upper=70000, levels=11, order_usd=50}`. -/
def cfgScenario1 : List (String × PyVal) :=
  [("symbol", .vstr "BTCUSDT"), ("lower_price", .vnum 60000),
   ("upper_price", .vnum 70000), ("grid_levels", .vnum 11),
   ("order_amount_usd", .vnum 50)]

/-- Grid parameters the validator computes for `cfgScenario1`:
step 1000, eleven lines 60000, 61000, ..., 70000. -/
def gridParamsScenario1 : GridStrategy.GridParams :=
  { symbol := .vstr "BTCUSDT"
    lower_price := 60000
    upper_price := 70000
    grid_levels := 11
    order_amount_usd := 50
    step_size := 1000
    grid_lines := [60000, 61000, 62000, 63000, 64000, 65000,
                   66000, 67000, 68000, 69000, 70000] }

lemma validate_cfgScenario1 :
    GridStrategy.validateAndSetConfig cfgScenario1 = .ok gridParamsScenario1 := by
  have h1 : lookupCfg cfgScenario1 "symbol" = some (.vstr "BTCUSDT") := rfl
  have h2 : lookupCfg cfgScenario1 "lower_price" = some (.vnum 60000) := rfl
  have h3 : lookupCfg cfgScenario1 "upper_price" = some (.vnum 70000) := rfl
  have h4 : lookupCfg cfgScenario1 "grid_levels" = some (.vnum 11) := rfl
  have h5 : lookupCfg cfgScenario1 "order_amount_usd" = some (.vnum 50) := rfl
  unfold GridStrategy.validateAndSetConfig
  rw [h1, h2, h3, h4, h5]
  norm_num [pyDecimal, pyInt, ratTrunc, gridParamsScenario1]
  rw [show Int.toNat 11 = 11 from rfl]
  norm_num [List.range_succ]

/-- Witness for claim C9 at the concrete scenario-1 configuration. -/
theorem claim_C9_witness :
    GridStrategy.validateAndSetConfig cfgScenario1 = .ok gridParamsScenario1 ∧
    (gridParamsScenario1.step_size =
      (gridParamsScenario1.upper_price - gridParamsScenario1.lower_price) /
        ((gridParamsScenario1.grid_levels : ℚ) - 1) ∧
    gridParamsScenario1.grid_lines =
      (List.range gridParamsScenario1.grid_levels.toNat).map
        (fun (i : ℕ) => gridParamsScenario1.lower_price +
          (i : ℚ) * gridParamsScenario1.step_size) ∧
    (gridParamsScenario1.grid_lines.length : Int) = gridParamsScenario1.grid_levels ∧
    ∃ mx mn, listMax gridParamsScenario1.grid_lines = some mx ∧
      listMin gridParamsScenario1.grid_lines = some mn ∧
      mx - mn = gridParamsScenario1.step_size *
        ((gridParamsScenario1.grid_levels : ℚ) - 1)) :=
  ⟨validate_cfgScenario1,
   claim_C9_grid_geometry cfgScenario1 gridParamsScenario1 validate_cfgScenario1⟩

namespace Crud

/-- Names imported at module scope in `persistence/crud.py` (lines 1-8):
`import logging`, `from sqlalchemy.orm import Session` (twice, plus
`joinedload`), `from typing import List, Optional, Dict, Any`,
`from sqlalchemy.exc import IntegrityError`, `from . import models`,
and `from .models import Agent, Trade, AgentGroup, AgentStatusEnum,
StrategyTypeEnum`. Note: `func` is NOT among them (models.py imports
`func` from sqlalchemy.sql, but Python name resolution is per-module). -/
def moduleImportedNames : List String :=
  ["logging", "Session", "List", "Optional", "Dict", "Any",
   "joinedload", "IntegrityError", "models",
   "Agent", "Trade", "AgentGroup", "AgentStatusEnum", "StrategyTypeEnum"]

/-- Functions defined at module scope in `persistence/crud.py`. -/
def moduleDefNames : List String :=
  ["get_agent_by_id", "get_agents", "create_agent", "update_agent",
   "update_agent_status", "delete_agent", "get_agents_in_group",
   "get_agent_group_by_id", "get_agent_group_by_name", "get_agent_groups",
   "create_agent_group", "update_agent_group", "delete_agent_group",
   "get_group_performance_summary", "create_trade", "get_trades_for_agent",
   "calculate_agent_pnl_summary"]

/-- Python global-name resolution inside `crud.py`: a name resolves iff
it is bound at module scope (imports or top-level defs). `func` is not a
Python builtin, so the builtin fallback cannot rescue it. -/
def resolvesInCrud (n : String) : Bool :=
  moduleImportedNames.contains n || moduleDefNames.contains n

/-- Binance order payload handed to `crud.create_trade`: the fields the
function reads with `.get`. `none` models a missing key (or, for
`commission`, a missing key or a `None` value, both of which the
source's `or 0.0` maps to zero). Numeric fields are modelled as already
numeric, so the `float(...)` conversions succeed. -/
structure TradePayload where
  symbol : Option String
  orderId : Option Nat
  clientOrderId : Option String
  side : Option String
  price : Option ℚ
  executedQty : Option ℚ
  cummulativeQuoteQty : Option ℚ
  commission : Option ℚ
  commissionAsset : Option String
deriving DecidableEq, Repr

/-- Row of the trades table as `crud.create_trade` would construct it.
The `timestamp` column is absent: its value expression `func.now()`
raises before any row can be constructed, so no constructed row ever
carries one. -/
structure TradeRow where
  agent_id : Int
  symbol : Option String
  order_id : Option Nat
  client_order_id : Option String
  side : Option String
  price : ℚ
  quantity : ℚ
  quote_quantity : ℚ
  commission : ℚ
  commission_asset : Option String
deriving DecidableEq, Repr

/-- Embedding of `crud.create_trade` (crud.py:236-257). The keyword
arguments of `models.Trade(...)` are evaluated left-to-right; the last
one is `timestamp=func.now()`, and the global name `func` is unbound in
crud.py, so evaluating it raises `NameError` before `db.add`/`commit`
can run. All earlier keyword expressions succeed on the modelled
payloads (their `float(...)` arguments are numeric by construction). -/
def create_trade (db : List TradeRow) (agent_id : Int)
    (trade_data : TradePayload) : Except PyErr (List TradeRow × TradeRow) :=
  if resolvesInCrud "func" then
    let row : TradeRow :=
      { agent_id := agent_id
        symbol := trade_data.symbol
        order_id := trade_data.orderId
        client_order_id := trade_data.clientOrderId
        side := trade_data.side
        price := trade_data.price.getD 0
        quantity := trade_data.executedQty.getD 0
        quote_quantity := trade_data.cummulativeQuoteQty.getD 0
        commission := trade_data.commission.getD 0
        commission_asset := trade_data.commissionAsset }
    .ok (db ++ [row], row)
  else
    .error (.nameError "func is not defined")

/-- Row of the agent_groups table (fields relevant to deletion). -/
structure GroupRow where
  id : Int
  name : String
deriving DecidableEq, Repr

/-- Row of the agents table (fields relevant to group deletion). -/
structure AgentRow where
  id : Int
  name : String
  group_id : Option Int
deriving DecidableEq, Repr

/-- The persistence store as seen by the group CRUD operations. -/
structure CrudDB where
  groups : List GroupRow
  agents : List AgentRow
deriving DecidableEq, Repr

/-- Embedding of `crud.delete_agent_group` (crud.py:177-198): fetch the
group by primary key (with its `agents` relationship, i.e. the agents
whose `group_id` equals the group's id); return `False` when absent;
raise `ValueError` (surfaced as Conflict) when the relationship is
non-empty, leaving the store untouched; otherwise delete the row and
return `True`. -/
def delete_agent_group (db : CrudDB) (group_id : Int) :
    CrudDB × Except PyErr Bool :=
  match db.groups.find? (fun g => g.id == group_id) with
  | none => (db, .ok false)
  | some g =>
    if !(db.agents.filter (fun a => a.group_id == some group_id)).isEmpty then
      (db, .error (.valueError ("Cannot delete group " ++ g.name ++ " as it is not empty.")))
    else
      ({ db with groups := db.groups.filter (fun g2 => !(g2.id == group_id)) }, .ok true)

/-- Whether a group with the given id exists in the store. -/
def groupExists (db : CrudDB) (gid : Int) : Bool :=
  db.groups.any (fun g => g.id == gid)

/-- The agents owned by the given group (the `agents` relationship). -/
def groupMembers (db : CrudDB) (gid : Int) : List AgentRow :=
  db.agents.filter (fun a => a.group_id == some gid)

/-- The store with the given group row removed. -/
def removeGroup (db : CrudDB) (gid : Int) : CrudDB :=
  { db with groups := db.groups.filter (fun g => !(g.id == gid)) }

/-- Projection of a CRUD result: `some b` for a normal return, `none`
when the operation raised. -/
def exceptOkBool : Except PyErr Bool → Option Bool
  | .ok b => some b
  | .error _ => none

end Crud

/-- Claim C3: for every database state, agent id, and trade payload,
`crud.create_trade` raises an uncaught `NameError` (the name `func` is
never imported in crud.py), and consequently never returns a persisted
trade record. -/
theorem claim_C3_create_trade_name_error (db : List Crud.TradeRow)
    (agent_id : Int) (td : Crud.TradePayload) :
    Crud.create_trade db agent_id td = .error (.nameError "func is not defined") ∧
    ∀ db2 row, Crud.create_trade db agent_id td ≠ .ok (db2, row) := by
  have he : Crud.create_trade db agent_id td
      = .error (.nameError "func is not defined") := rfl
  refine ⟨he, ?_⟩
  intro db2 row hco
  rw [he] at hco
  exact Except.noConfusion hco

/-- Claim C10: deleting an agent group raises Conflict exactly when the
group exists and owns at least one agent, and then the store is
unchanged; deleting an existing empty group removes it and returns
true; deleting a non-existent group id returns false and changes
nothing. -/
theorem claim_C10_delete_agent_group (db : Crud.CrudDB) (gid : Int) :
    (Crud.delete_agent_group db gid).1 =
      (if Crud.groupExists db gid && (Crud.groupMembers db gid).isEmpty then
        Crud.removeGroup db gid else db) ∧
    Crud.exceptOkBool (Crud.delete_agent_group db gid).2 =
      (if Crud.groupExists db gid then
        (if (Crud.groupMembers db gid).isEmpty then some true else none)
      else some false) := by
  unfold Crud.delete_agent_group Crud.groupExists Crud.groupMembers Crud.removeGroup
  cases hf : db.groups.find? (fun g => g.id == gid) with
  | none =>
    have hany : db.groups.any (fun g => g.id == gid) = false := by
      rw [List.any_eq_false]
      intro g hg
      simpa using List.find?_eq_none.1 hf g hg
    simp [hany, Crud.exceptOkBool]
  | some g =>
    have hmem := List.mem_of_find?_eq_some hf
    have hp := List.find?_some hf
    have hany : db.groups.any (fun x => x.id == gid) = true :=
      List.any_eq_true.2 ⟨g, hmem, hp⟩
    by_cases he : (db.agents.filter (fun a => a.group_id == some gid)).isEmpty
    · simp [hany, he, Crud.exceptOkBool]
    · simp [hany, he, Crud.exceptOkBool]

/-- A limit order as returned by
`BinanceClientWrapper.create_limit_order` (the fields the strategy
reads). `orderId = 0` models a falsy exchange order id (Python treats
`0`/missing as falsy in `if not order_id`). -/
structure Order where
  orderId : Nat
  clientOrderId : String
  side : String
  price : ℚ
  origQty : ℚ
deriving DecidableEq, Repr

/-- Status-query result for an order: the fields
`GridStrategy._check_and_replace_orders` reads from the (simulated)
`get_order` response. -/
structure OrderStatusInfo where
  status : String
  executedQty : ℚ
  price : ℚ
  commission : ℚ
deriving DecidableEq, Repr

/-- Deterministic model of the remote exchange as seen by one worker
(the worker's symbol is fixed, so it is not a parameter):
`current_price` models `get_current_price` (None on failure),
`create_limit_order` takes side, quantity, price, `cancel_order` returns
the truthiness of the cancel result, `get_order_status` models the
order-status query of the tick (None when the status cannot be
fetched). -/
structure ExchangeEnv where
  current_price : Option ℚ
  create_limit_order : String → ℚ → ℚ → Option Order
  cancel_order : Nat → Bool
  get_order_status : Order → Option OrderStatusInfo

/-- A request issued to the exchange, in issue order. -/
inductive ExchAction where
  | createOrder (side : String) (qty : ℚ) (price : ℚ)
  | cancelOrder (orderId : Nat)
deriving DecidableEq, Repr

/-- In-memory runtime state of a grid worker: the stop event and the
two pending-order maps keyed by client order id
(grid_strategy.py:41-42). -/
structure GridState where
  stop_event : Bool
  open_buy_orders : List (String × Order)
  open_sell_orders : List (String × Order)
deriving DecidableEq, Repr

/-- Python dict assignment `m[k] = v`: overwrite an existing binding or
append a new one. -/
def dictSet (m : List (String × Order)) (k : String) (v : Order) :
    List (String × Order) :=
  if m.any (fun kv => kv.1 == k) then
    m.map (fun kv => if kv.1 == k then (k, v) else kv)
  else m ++ [(k, v)]

/-- Python dict `m.pop(k, None)`: drop the binding if present. -/
def dictPop (m : List (String × Order)) (k : String) : List (String × Order) :=
  m.filter (fun kv => !(kv.1 == k))

/-- `Decimal.quantize(Decimal('1e-8'), rounding=ROUND_DOWN)`: round a
quantity down (toward zero) to 8 decimal places, the placeholder
quantity precision of `_place_initial_orders`
(grid_strategy.py:110,115). -/
def quantizeDown8 (q : ℚ) : ℚ :=
  ((ratTrunc (q * 10 ^ 8) : Int) : ℚ) / 10 ^ 8

/-- The cancellation loop of `GridStrategy._cancel_all_open_orders`
(grid_strategy.py:278-293): for each snapshot order, return immediately
if the stop event is set, skip orders with a falsy order id, otherwise
issue a cancel request (the response only affects the logged counters,
which we do not track). -/
def cancelLoop (env : ExchangeEnv) :
    List Order → GridState → List ExchAction → GridState × List ExchAction
  | [], st, acc => (st, acc)
  | o :: rest, st, acc =>
    if st.stop_event then (st, acc)
    else if o.orderId == 0 then cancelLoop env rest st acc
    else
      let _ := env.cancel_order o.orderId
      cancelLoop env rest st (acc ++ [.cancelOrder o.orderId])

/-- Embedding of `GridStrategy._cancel_all_open_orders`
(grid_strategy.py:269-295): snapshot the tracked orders, clear both
pending maps, then run the cancellation loop over the snapshot. -/
def cancelAllOpenOrders (env : ExchangeEnv) (st : GridState) :
    GridState × List ExchAction :=
  let orders := (st.open_buy_orders.map Prod.snd) ++ (st.open_sell_orders.map Prod.snd)
  let st1 := { st with open_buy_orders := [], open_sell_orders := [] }
  cancelLoop env orders st1 []

/-- Embedding of `BaseStrategy.stop` (base_strategy.py:185-202): when
the worker thread is alive, set the stop event; otherwise only correct
the persisted status (not part of `GridState`) and leave the event
unset. -/
def baseStop (threadAlive : Bool) (st : GridState) : GridState :=
  if threadAlive then { st with stop_event := true } else st

/-- Embedding of `GridStrategy.stop` (grid_strategy.py:340-355):
delegate to the base stop (which sets the stop event), then call
`_cancel_all_open_orders` (exceptions from it are caught and logged;
the model raises none). -/
def gridStop (env : ExchangeEnv) (threadAlive : Bool) (st : GridState) :
    GridState × List ExchAction :=
  cancelAllOpenOrders env (baseStop threadAlive st)

/-- Claim C4 evaluation: stopping a grid worker whose loop thread is
alive issues NO cancel request at all — the stop event set by the base
stop makes the cancellation loop return at its first iteration — even
though both pending maps are cleared. This contradicts the claim that a
cancel is issued for every tracked order (whenever at least one order
is tracked). -/
theorem claim_C4_stop_cancels_nothing (env : ExchangeEnv) (st : GridState) :
    gridStop env true st =
      ({ stop_event := true, open_buy_orders := [], open_sell_orders := [] },
       ([] : List ExchAction)) := by
  unfold gridStop baseStop cancelAllOpenOrders
  simp only [if_pos]
  cases (st.open_buy_orders.map Prod.snd) ++ (st.open_sell_orders.map Prod.snd) with
  | nil => rfl
  | cons o rest => rfl

/-- The per-line body of the initial-placement loop of
`GridStrategy._place_initial_orders` (grid_strategy.py:112-147): stop
check, quantity `order_amount_usd / price` rounded down to 8 decimals,
skip when the quantity is ≤ 0, BUY below the current price, SELL above
it, nothing at it; a successful placement is tracked in the matching
pending map keyed by the returned client order id. -/
def placeLoop (env : ExchangeEnv) (amt : ℚ) (currentPrice : ℚ) :
    List ℚ → GridState → List ExchAction → GridState × List ExchAction
  | [], st, acc => (st, acc)
  | price :: rest, st, acc =>
    if st.stop_event then (st, acc)
    else
      let order_qty := quantizeDown8 (amt / price)
      if order_qty ≤ 0 then placeLoop env amt currentPrice rest st acc
      else if price < currentPrice then
        match env.create_limit_order "BUY" order_qty price with
        | some order =>
          placeLoop env amt currentPrice rest
            { st with open_buy_orders := dictSet st.open_buy_orders order.clientOrderId order }
            (acc ++ [.createOrder "BUY" order_qty price])
        | none =>
          placeLoop env amt currentPrice rest st (acc ++ [.createOrder "BUY" order_qty price])
      else if currentPrice < price then
        match env.create_limit_order "SELL" order_qty price with
        | some order =>
          placeLoop env amt currentPrice rest
            { st with open_sell_orders := dictSet st.open_sell_orders order.clientOrderId order }
            (acc ++ [.createOrder "SELL" order_qty price])
        | none =>
          placeLoop env amt currentPrice rest st (acc ++ [.createOrder "SELL" order_qty price])
      else
        placeLoop env amt currentPrice rest st acc

/-- Embedding of `GridStrategy._place_initial_orders`
(grid_strategy.py:94-149): fetch the current price (on failure persist
*error*, set the stop event and return — the third component is this
error flag); cancel all currently tracked orders; then run the
placement loop over the grid lines. -/
def placeInitialOrders (env : ExchangeEnv) (p : GridStrategy.GridParams)
    (st : GridState) : GridState × List ExchAction × Bool :=
  match env.current_price with
  | none => ({ st with stop_event := true }, [], true)
  | some currentPrice =>
    let r1 := cancelAllOpenOrders env st
    let r2 := placeLoop env p.order_amount_usd currentPrice p.grid_lines r1.1 []
    (r2.1, r1.2 ++ r2.2, false)


/-- Declarative form of the successful BUY placements over a list of
grid lines: one tracked entry, keyed by client order id, per line
strictly below the current price with positive rounded quantity and a
non-None exchange response. -/
def buyPlacementsOn (env : ExchangeEnv) (amt : ℚ) (currentPrice : ℚ)
    (ls : List ℚ) : List (String × Order) :=
  ls.filterMap (fun price =>
    Option.map (fun o => (o.clientOrderId, o))
      (if quantizeDown8 (amt / price) ≤ 0 then none
       else if price < currentPrice then
         env.create_limit_order "BUY" (quantizeDown8 (amt / price)) price
       else none))

/-- Declarative form of the successful SELL placements over a list of
grid lines: one tracked entry per line strictly above the current
price with positive rounded quantity and a non-None exchange
response. -/
def sellPlacementsOn (env : ExchangeEnv) (amt : ℚ) (currentPrice : ℚ)
    (ls : List ℚ) : List (String × Order) :=
  ls.filterMap (fun price =>
    Option.map (fun o => (o.clientOrderId, o))
      (if quantizeDown8 (amt / price) ≤ 0 then none
       else if price < currentPrice then none
       else if currentPrice < price then
         env.create_limit_order "SELL" (quantizeDown8 (amt / price)) price
       else none))

/-- Declarative form of the placement requests issued to the exchange
over a list of grid lines: a BUY below the current price, a SELL above
it, nothing at it or when the rounded quantity is ≤ 0. -/
def placementRequestsOn (_env : ExchangeEnv) (amt : ℚ) (currentPrice : ℚ)
    (ls : List ℚ) : List ExchAction :=
  ls.filterMap (fun price =>
    if quantizeDown8 (amt / price) ≤ 0 then none
    else if price < currentPrice then
      some (.createOrder "BUY" (quantizeDown8 (amt / price)) price)
    else if currentPrice < price then
      some (.createOrder "SELL" (quantizeDown8 (amt / price)) price)
    else none)

lemma filterMap_cons_toList {β : Type} (f : ℚ → Option β) (x : ℚ) (xs : List ℚ) :
    (x :: xs).filterMap f = (f x).toList ++ xs.filterMap f := by
  cases h : f x <;> simp [List.filterMap_cons, h]

lemma dictSet_fresh (m : List (String × Order)) (k : String) (v : Order)
    (h : ¬ k ∈ m.map Prod.fst) : dictSet m k v = m ++ [(k, v)] := by
  unfold dictSet
  rw [if_neg]
  intro hany
  rw [List.any_eq_true] at hany
  obtain ⟨kv, hkv, hbeq⟩ := hany
  exact h (List.mem_map.2 ⟨kv, hkv, by simpa using hbeq⟩)

lemma nodup_middle_extract {A : List String} {k : String} {B : List String}
    (h : (A ++ (k :: B)).Nodup) : ¬ k ∈ A ∧ ((A ++ [k]) ++ B).Nodup := by
  constructor
  · intro hk
    rw [List.nodup_append] at h
    exact h.2.2 hk (by simp)
  · rwa [List.append_cons] at h

lemma placeLoop_spec (env : ExchangeEnv) (amt currentPrice : ℚ) :
    ∀ (ls : List ℚ) (st : GridState) (acc : List ExchAction),
    st.stop_event = false →
    ((st.open_buy_orders.map Prod.fst) ++
      ((buyPlacementsOn env amt currentPrice ls).map Prod.fst)).Nodup →
    ((st.open_sell_orders.map Prod.fst) ++
      ((sellPlacementsOn env amt currentPrice ls).map Prod.fst)).Nodup →
    placeLoop env amt currentPrice ls st acc =
      ({ stop_event := false
         open_buy_orders := st.open_buy_orders ++ buyPlacementsOn env amt currentPrice ls
         open_sell_orders := st.open_sell_orders ++ sellPlacementsOn env amt currentPrice ls },
       acc ++ placementRequestsOn env amt currentPrice ls) := by
  intro ls
  induction ls with
  | nil =>
    intro st acc hstop _ _
    simp only [placeLoop, buyPlacementsOn, sellPlacementsOn, placementRequestsOn,
      List.filterMap_nil, List.append_nil]
    cases st with
    | mk se ob os => simp_all
  | cons price rest ih =>
    intro st acc hstop hbk hsk
    rw [placeLoop, if_neg (by rw [hstop]; exact Bool.false_ne_true)]
    have hb2 : buyPlacementsOn env amt currentPrice (price :: rest)
        = (Option.map (fun o => (o.clientOrderId, o))
            (if quantizeDown8 (amt / price) ≤ 0 then none
             else if price < currentPrice then
               env.create_limit_order "BUY" (quantizeDown8 (amt / price)) price
             else none)).toList ++ buyPlacementsOn env amt currentPrice rest :=
      filterMap_cons_toList _ price rest
    have hs2 : sellPlacementsOn env amt currentPrice (price :: rest)
        = (Option.map (fun o => (o.clientOrderId, o))
            (if quantizeDown8 (amt / price) ≤ 0 then none
             else if price < currentPrice then none
             else if currentPrice < price then
               env.create_limit_order "SELL" (quantizeDown8 (amt / price)) price
             else none)).toList ++ sellPlacementsOn env amt currentPrice rest :=
      filterMap_cons_toList _ price rest
    have hr2 : placementRequestsOn env amt currentPrice (price :: rest)
        = ((if quantizeDown8 (amt / price) ≤ 0 then none
            else if price < currentPrice then
              some (ExchAction.createOrder "BUY" (quantizeDown8 (amt / price)) price)
            else if currentPrice < price then
              some (ExchAction.createOrder "SELL" (quantizeDown8 (amt / price)) price)
            else none) : Option ExchAction).toList
          ++ placementRequestsOn env amt currentPrice rest :=
      filterMap_cons_toList _ price rest
    rw [hb2] at hbk ⊢
    rw [hs2] at hsk ⊢
    rw [hr2]
    by_cases hq : quantizeDown8 (amt / price) ≤ 0
    · simp only [hq, ite_true, Option.map_none', Option.toList_none,
        List.nil_append] at hbk hsk ⊢
      exact ih st acc hstop hbk hsk
    · simp only [hq, ite_false] at hbk hsk ⊢
      by_cases hlt : price < currentPrice
      · simp only [hlt, ite_true, Option.map_none', Option.toList_none,
          List.nil_append] at hbk hsk ⊢
        cases hco : env.create_limit_order "BUY" (quantizeDown8 (amt / price)) price with
        | none =>
          rw [hco] at hbk
          simp only [Option.map_none', Option.toList_none, List.nil_append] at hbk ⊢
          rw [ih st (acc ++ [ExchAction.createOrder "BUY" (quantizeDown8 (amt / price)) price])
            hstop hbk hsk]
          simp
        | some order =>
          rw [hco] at hbk
          simp only [Option.map_some', Option.toList_some, List.singleton_append,
            List.map_cons] at hbk ⊢
          obtain ⟨hfresh, hnd2⟩ := nodup_middle_extract hbk
          rw [dictSet_fresh _ _ _ hfresh]
          have hbk2 : (((st.open_buy_orders ++ [(order.clientOrderId, order)]).map Prod.fst) ++
              ((buyPlacementsOn env amt currentPrice rest).map Prod.fst)).Nodup := by
            rw [List.map_append]
            simpa using hnd2
          rw [ih { st with open_buy_orders := st.open_buy_orders ++ [(order.clientOrderId, order)] }
            (acc ++ [ExchAction.createOrder "BUY" (quantizeDown8 (amt / price)) price])
            hstop hbk2 hsk]
          simp
      · simp only [hlt, ite_false, Option.map_none', Option.toList_none,
          List.nil_append] at hbk hsk ⊢
        by_cases hgt : currentPrice < price
        · simp only [hgt, ite_true] at hsk ⊢
          cases hco : env.create_limit_order "SELL" (quantizeDown8 (amt / price)) price with
          | none =>
            rw [hco] at hsk
            simp only [Option.map_none', Option.toList_none, List.nil_append] at hsk ⊢
            rw [ih st (acc ++ [ExchAction.createOrder "SELL" (quantizeDown8 (amt / price)) price])
              hstop hbk hsk]
            simp
          | some order =>
            rw [hco] at hsk
            simp only [Option.map_some', Option.toList_some, List.singleton_append,
              List.map_cons] at hsk ⊢
            obtain ⟨hfresh, hnd2⟩ := nodup_middle_extract hsk
            rw [dictSet_fresh _ _ _ hfresh]
            have hsk2 : (((st.open_sell_orders ++ [(order.clientOrderId, order)]).map Prod.fst) ++
                ((sellPlacementsOn env amt currentPrice rest).map Prod.fst)).Nodup := by
              rw [List.map_append]
              simpa using hnd2
            rw [ih { st with open_sell_orders := st.open_sell_orders ++ [(order.clientOrderId, order)] }
              (acc ++ [ExchAction.createOrder "SELL" (quantizeDown8 (amt / price)) price])
              hstop hbk hsk2]
            simp
        · simp only [hgt, ite_false, Option.map_none', Option.toList_none,
            List.nil_append] at hsk ⊢
          exact ih st acc hstop hbk hsk

/-- Claim C8: during initial grid placement with current price P (and a
fresh worker: stop event unset, empty pending maps; assuming the
exchange assigns distinct client order ids), every grid line L with
rounded quantity ≤ 0 is skipped without error, a BUY request is issued
at L when L < P, a SELL when L > P, none when L = P, and each
successful placement is recorded in the matching pending map keyed by
the client order id. -/
theorem claim_C8_initial_placement (env : ExchangeEnv)
    (p : GridStrategy.GridParams) (P : ℚ) (st : GridState)
    (hprice : env.current_price = some P)
    (hstop : st.stop_event = false)
    (hbuy : st.open_buy_orders = [])
    (hsell : st.open_sell_orders = [])
    (hbk : ((buyPlacementsOn env p.order_amount_usd P p.grid_lines).map Prod.fst).Nodup)
    (hsk : ((sellPlacementsOn env p.order_amount_usd P p.grid_lines).map Prod.fst).Nodup) :
    placeInitialOrders env p st =
      ({ stop_event := false
         open_buy_orders := buyPlacementsOn env p.order_amount_usd P p.grid_lines
         open_sell_orders := sellPlacementsOn env p.order_amount_usd P p.grid_lines },
       placementRequestsOn env p.order_amount_usd P p.grid_lines, false) := by
  unfold placeInitialOrders
  rw [hprice]
  have hcancel : cancelAllOpenOrders env st =
      ({ stop_event := false, open_buy_orders := [], open_sell_orders := [] }, []) := by
    unfold cancelAllOpenOrders
    rw [hbuy, hsell]
    simp only [List.map_nil, List.nil_append, cancelLoop]
    obtain ⟨se, ob, os⟩ := st
    simp_all
  dsimp only
  rw [hcancel]
  rw [placeLoop_spec env p.order_amount_usd P p.grid_lines
    { stop_event := false, open_buy_orders := [], open_sell_orders := [] } [] rfl
    (by simpa using hbk) (by simpa using hsk)]
  simp

/-- Concrete two-line scenario for the initial placement: price between
the two grid lines, exchange answering every placement with an order
whose client order id is the requested side. -/
def envScenario : ExchangeEnv :=
  { current_price := some 65000
    create_limit_order := fun side qty price =>
      some { orderId := 7, clientOrderId := side, side := side, price := price, origQty := qty }
    cancel_order := fun _ => true
    get_order_status := fun _ => none }

/-- Two-level grid parameters 60000..70000, 50 USD per order. -/
def gridParamsTwoLevel : GridStrategy.GridParams :=
  { symbol := .vstr "BTCUSDT"
    lower_price := 60000
    upper_price := 70000
    grid_levels := 2
    order_amount_usd := 50
    step_size := 10000
    grid_lines := [60000, 70000] }

/-- Fresh grid worker runtime state. -/
def gridState0 : GridState :=
  { stop_event := false, open_buy_orders := [], open_sell_orders := [] }

/-- Witness for claim C8 at a concrete two-line grid: one BUY placed
and tracked at 60000 with quantity 0.00083333, one SELL at 70000 with
quantity 0.00071428 (both rounded down to 8 decimals). -/
theorem claim_C8_witness :
    envScenario.current_price = some 65000 ∧
    gridState0.stop_event = false ∧
    gridState0.open_buy_orders = [] ∧
    gridState0.open_sell_orders = [] ∧
    ((buyPlacementsOn envScenario gridParamsTwoLevel.order_amount_usd 65000
        gridParamsTwoLevel.grid_lines).map Prod.fst).Nodup ∧
    ((sellPlacementsOn envScenario gridParamsTwoLevel.order_amount_usd 65000
        gridParamsTwoLevel.grid_lines).map Prod.fst).Nodup ∧
    placeInitialOrders envScenario gridParamsTwoLevel gridState0 =
      ({ stop_event := false
         open_buy_orders := [("BUY",
           { orderId := 7, clientOrderId := "BUY", side := "BUY",
             price := 60000, origQty := 83333 / 100000000 })]
         open_sell_orders := [("SELL",
           { orderId := 7, clientOrderId := "SELL", side := "SELL",
             price := 70000, origQty := 71428 / 100000000 })] },
       [ExchAction.createOrder "BUY" (83333 / 100000000) 60000,
        ExchAction.createOrder "SELL" (71428 / 100000000) 70000], false) := by
  have hq1 : quantizeDown8 ((50 : ℚ) / 60000) = 83333 / 100000000 := by
    norm_num [quantizeDown8, ratTrunc]
  have hq2 : quantizeDown8 ((50 : ℚ) / 70000) = 71428 / 100000000 := by
    norm_num [quantizeDown8, ratTrunc]
  have hq1n : quantizeDown8 ((1 : ℚ) / 1200) = 83333 / 100000000 := by
    norm_num [quantizeDown8, ratTrunc]
  have hq2n : quantizeDown8 ((1 : ℚ) / 1400) = 71428 / 100000000 := by
    norm_num [quantizeDown8, ratTrunc]
  have hbk : ((buyPlacementsOn envScenario gridParamsTwoLevel.order_amount_usd 65000
      gridParamsTwoLevel.grid_lines).map Prod.fst).Nodup := by
    norm_num [buyPlacementsOn, envScenario, gridParamsTwoLevel, hq1, hq2, hq1n, hq2n,
      List.filterMap_cons, List.filterMap_nil]
  have hsk : ((sellPlacementsOn envScenario gridParamsTwoLevel.order_amount_usd 65000
      gridParamsTwoLevel.grid_lines).map Prod.fst).Nodup := by
    norm_num [sellPlacementsOn, envScenario, gridParamsTwoLevel, hq1, hq2, hq1n, hq2n,
      List.filterMap_cons, List.filterMap_nil]
  refine ⟨rfl, rfl, rfl, rfl, hbk, hsk, ?_⟩
  rw [claim_C8_initial_placement envScenario gridParamsTwoLevel 65000 gridState0
    rfl rfl rfl rfl hbk hsk]
  norm_num [buyPlacementsOn, sellPlacementsOn, placementRequestsOn,
    envScenario, gridParamsTwoLevel, hq1, hq2, hq1n, hq2n, List.filterMap_cons, List.filterMap_nil]

namespace BaseStrategy

/-- Parameter list of `BaseStrategy._record_trade`
(base_strategy.py:49): `def _record_trade(self, trade_data)` — there is
no `pnl_usd` parameter and no keyword catch-all. -/
def recordTradeParams : List String := ["self", "trade_data"]

/-- Python call binding for keyword arguments: after `nPos` positional
bindings, every keyword name must name one of the remaining declared
parameters, otherwise the call raises `TypeError` (unexpected keyword
argument) before the callee body runs. -/
def bindCallKwargs (params : List String) (nPos : Nat) (kws : List String) :
    Except PyErr Unit :=
  if kws.all (fun k => (params.drop nPos).contains k) then .ok ()
  else .error (.typeError "unexpected keyword argument")

end BaseStrategy

/-- Exchange requests and persistence/bus effects accumulated during a
tick: requests issued, trade rows persisted through
`crud.create_trade`, and channels on which events were published. -/
structure TickLog where
  actions : List ExchAction
  trades : List Crud.TradeRow
  events : List String
deriving DecidableEq, Repr

/-- Embedding of the body of `BaseStrategy._record_trade`
(base_strategy.py:49-72), reached only if the call binds: skip when the
order id is falsy; call `crud.create_trade` inside try/except (a raise
is logged and swallowed, and then nothing is published); on success
append the row and publish `trade_executed` on *agent_events*. Payload
fields the embedding does not track are passed as absent; the outcome
of `create_trade` does not depend on them. -/
def record_trade (agent_id : Int) (o : Order) (os : OrderStatusInfo)
    (lg : TickLog) : TickLog :=
  if o.orderId == 0 then lg
  else
    match Crud.create_trade lg.trades agent_id
      { symbol := none
        orderId := some o.orderId
        clientOrderId := some o.clientOrderId
        side := some o.side
        price := some os.price
        executedQty := some os.executedQty
        cummulativeQuoteQty := none
        commission := some os.commission
        commissionAsset := none } with
    | .error _ => lg
    | .ok (db2, _row) =>
      { lg with trades := db2, events := lg.events ++ ["agent_events"] }

/-- Embedding of `GridStrategy._place_single_order`
(grid_strategy.py:245-267): stop check, issue the request, track a
successful order in the matching pending map. -/
def placeSingleOrder (env : ExchangeEnv) (side : String) (price quantity : ℚ)
    (st : GridState) (lg : TickLog) : GridState × TickLog :=
  if st.stop_event then (st, lg)
  else
    let lg1 := { lg with actions := lg.actions ++ [.createOrder side quantity price] }
    match env.create_limit_order side quantity price with
    | some order =>
      if side == "BUY" then
        ({ st with open_buy_orders := dictSet st.open_buy_orders order.clientOrderId order }, lg1)
      else
        ({ st with open_sell_orders := dictSet st.open_sell_orders order.clientOrderId order }, lg1)
    | none => (st, lg1)

/-- The per-order body inside the `try` of
`GridStrategy._check_and_replace_orders` (grid_strategy.py:163-241):
skip on falsy ids or a failed status query; on FILLED compute the
simplified PnL, then call `self._record_trade(order_status,
pnl_usd=trade_pnl)` — whose keyword binding against
`_record_trade(self, trade_data)` raises `TypeError` — and only then
(unreachably) record, pop the filled order and place the bounded
replenishment one step away; on CANCELED/REJECTED/EXPIRED pop the
order; otherwise leave everything in place. -/
def processOrderBody (env : ExchangeEnv) (agent_id : Int)
    (p : GridStrategy.GridParams) (st : GridState) (lg : TickLog)
    (order : Order) : Except PyErr (GridState × TickLog) := do
  if order.orderId == 0 then return (st, lg)
  if order.clientOrderId == "" then return (st, lg)
  match env.get_order_status order with
  | none => return (st, lg)
  | some os =>
    if os.status == "FILLED" then
      let trade_pnl : Option ℚ :=
        if order.side == "SELL" && decide (0 < os.executedQty) then
          some ((os.price - (os.price - p.step_size)) * os.executedQty - os.commission)
        else none
      _ ← BaseStrategy.bindCallKwargs BaseStrategy.recordTradeParams 2 ["pnl_usd"]
      let _ := trade_pnl
      let lg1 := record_trade agent_id order os lg
      if order.side == "BUY" then
        let st1 := { st with open_buy_orders := dictPop st.open_buy_orders order.clientOrderId }
        let sell_price := order.price + p.step_size
        if sell_price ≤ p.upper_price then
          return placeSingleOrder env "SELL" sell_price order.origQty st1 lg1
        else return (st1, lg1)
      else
        let st1 := { st with open_sell_orders := dictPop st.open_sell_orders order.clientOrderId }
        let buy_price := order.price - p.step_size
        if p.lower_price ≤ buy_price then
          return placeSingleOrder env "BUY" buy_price order.origQty st1 lg1
        else return (st1, lg1)
    else if os.status == "CANCELED" || os.status == "REJECTED" || os.status == "EXPIRED" then
      if order.side == "BUY" then
        return ({ st with open_buy_orders := dictPop st.open_buy_orders order.clientOrderId }, lg)
      else
        return ({ st with open_sell_orders := dictPop st.open_sell_orders order.clientOrderId }, lg)
    else
      return (st, lg)

/-- The per-order step of the tick with its enclosing `except` clause
(grid_strategy.py:242-243): a raise from the body is logged and the
loop continues; nothing was mutated before the only raising point, so
the pre-call state and log survive unchanged. -/
def processOrder (env : ExchangeEnv) (agent_id : Int)
    (p : GridStrategy.GridParams) (st : GridState) (lg : TickLog)
    (order : Order) : GridState × TickLog :=
  match processOrderBody env agent_id p st lg order with
  | .ok r => r
  | .error _ => (st, lg)

/-- The order loop of `_check_and_replace_orders`
(grid_strategy.py:163-164): iterate a snapshot of the tracked orders,
returning early when the stop event is set. -/
def checkLoop (env : ExchangeEnv) (agent_id : Int)
    (p : GridStrategy.GridParams) :
    List Order → GridState → TickLog → GridState × TickLog
  | [], st, lg => (st, lg)
  | o :: rest, st, lg =>
    if st.stop_event then (st, lg)
    else
      let r := processOrder env agent_id p st lg o
      checkLoop env agent_id p rest r.1 r.2

/-- Embedding of `GridStrategy._check_and_replace_orders`
(grid_strategy.py:151-243): re-place the initial grid when both pending
maps are empty, otherwise process a snapshot of the tracked orders. -/
def checkAndReplaceOrders (env : ExchangeEnv) (agent_id : Int)
    (p : GridStrategy.GridParams) (st : GridState) (lg : TickLog) :
    GridState × TickLog :=
  if st.open_buy_orders.isEmpty && st.open_sell_orders.isEmpty then
    let r := placeInitialOrders env p st
    (r.1, { lg with actions := lg.actions ++ r.2.1 })
  else
    checkLoop env agent_id p
      (st.open_buy_orders.map Prod.snd ++ st.open_sell_orders.map Prod.snd) st lg

/-- Claim C2 evaluation: when the tick observes a tracked order (with
non-falsy ids) whose status query returns FILLED, the
`_record_trade(order_status, pnl_usd=...)` call raises `TypeError`
(unexpected keyword argument `pnl_usd`), the per-order `except` clause
swallows it, and the worker state and effect log are left completely
unchanged: no trade is recorded, the order stays in its pending map,
and no replenishment order is placed — contradicting the claim. -/
theorem claim_C2_filled_order_tick_raises (env : ExchangeEnv)
    (agent_id : Int) (p : GridStrategy.GridParams) (st : GridState)
    (lg : TickLog) (o : Order) (os : OrderStatusInfo)
    (hid : ¬ o.orderId = 0) (hcid : ¬ o.clientOrderId = "")
    (hst : env.get_order_status o = some os) (hfill : os.status = "FILLED") :
    processOrderBody env agent_id p st lg o =
      .error (.typeError "unexpected keyword argument") ∧
    processOrder env agent_id p st lg o = (st, lg) := by
  have hbody : processOrderBody env agent_id p st lg o =
      .error (.typeError "unexpected keyword argument") := by
    unfold processOrderBody
    rw [hst]
    simp [hid, hcid, hfill, BaseStrategy.bindCallKwargs, BaseStrategy.recordTradeParams,
      Except.bind]
    rfl
  refine ⟨hbody, ?_⟩
  unfold processOrder
  rw [hbody]

/-- Exchange model in which every status query answers FILLED at price
64000. -/
def envFilled : ExchangeEnv :=
  { current_price := some 64500
    create_limit_order := fun side qty price =>
      some { orderId := 11, clientOrderId := "R1", side := side, price := price, origQty := qty }
    cancel_order := fun _ => true
    get_order_status := fun _ =>
      some { status := "FILLED", executedQty := 1, price := 64000, commission := 0 } }

/-- A tracked BUY order at grid line 64000. -/
def orderB64000 : Order :=
  { orderId := 9, clientOrderId := "B64000", side := "BUY", price := 64000, origQty := 1 }

/-- Worker state tracking exactly that BUY order. -/
def gridStateWithBuy : GridState :=
  { stop_event := false
    open_buy_orders := [("B64000", orderB64000)]
    open_sell_orders := [] }

/-- Empty effect log. -/
def emptyLog : TickLog := { actions := [], trades := [], events := [] }

/-- Witness for claim C2 at a concrete FILLED BUY order: the tick body
raises the keyword-binding TypeError and the order processing leaves
the state and log untouched. -/
theorem claim_C2_witness :
    ¬ orderB64000.orderId = 0 ∧
    ¬ orderB64000.clientOrderId = "" ∧
    envFilled.get_order_status orderB64000 =
      some { status := "FILLED", executedQty := 1, price := 64000, commission := 0 } ∧
    ({ status := "FILLED", executedQty := 1, price := 64000,
       commission := 0 } : OrderStatusInfo).status = "FILLED" ∧
    (processOrderBody envFilled 1 gridParamsScenario1 gridStateWithBuy emptyLog orderB64000 =
      .error (.typeError "unexpected keyword argument") ∧
     processOrder envFilled 1 gridParamsScenario1 gridStateWithBuy emptyLog orderB64000 =
      (gridStateWithBuy, emptyLog)) :=
  ⟨by decide, by decide, rfl, rfl,
   claim_C2_filled_order_tick_raises envFilled 1 gridParamsScenario1 gridStateWithBuy
     emptyLog orderB64000
     { status := "FILLED", executedQty := 1, price := 64000, commission := 0 }
     (by decide) (by decide) rfl rfl⟩

namespace BaseStrategy

/-- Payload of a communication-bus message: the fields
`_handle_comm_message` reads. -/
structure MsgPayload where
  agent_id : Option Int
  group_id : Option Int
  params : List (String × PyVal)
deriving DecidableEq, Repr

/-- Message envelope (`message_data`): `type` and `payload` as read with
`.get` (None when absent). -/
structure Envelope where
  type : Option String
  payload : Option MsgPayload
deriving DecidableEq, Repr

/-- The two parameter stores of a worker: the runtime
`current_parameters` map (consulted by the loop) and the persisted
config. -/
structure WorkerParams where
  current_parameters : List (String × PyVal)
  persisted_config : List (String × PyVal)
deriving DecidableEq, Repr

/-- Embedding of `BaseStrategy._handle_comm_message`
(base_strategy.py:87-106): drop envelopes with a falsy type or missing
payload; on `parameter_update` with matching `agent_id` only LOG the
suggestion — the delegation `self._adapt_parameters(payload.get(
'params', {}))` is commented out in the source (line 101) — on
`group_signal` with matching group id only log; otherwise ignore. No
branch modifies the runtime-parameter map or the persisted config. -/
def handle_comm_message (selfId : Int) (selfGroupId : Option Int)
    (w : WorkerParams) (msg : Envelope) : WorkerParams :=
  match msg.type, msg.payload with
  | some t, some pl =>
    if t == "" then w
    else if t == "parameter_update" && pl.agent_id == some selfId then w
    else if t == "group_signal" && pl.group_id == selfGroupId then w
    else w
  | _, _ => w

/-- The inter-tick sleep duration read by `_run_loop`
(base_strategy.py:155): `current_parameters.get("loop_interval_seconds",
10)`. -/
def loop_interval (w : WorkerParams) : PyVal :=
  (lookupCfg w.current_parameters "loop_interval_seconds").getD (.vnum 10)

end BaseStrategy

/-- The learning-module suggestion of spec scenario 4: set
`loop_interval_seconds` to 2 for agent 1. -/
def suggestionMsg : BaseStrategy.Envelope :=
  { type := some "parameter_update"
    payload := some { agent_id := some 1, group_id := none,
                      params := [("loop_interval_seconds", .vnum 2)] } }

/-- Worker parameter stores with a 10-second loop interval. -/
def workerParams0 : BaseStrategy.WorkerParams :=
  { current_parameters := [("loop_interval_seconds", .vnum 10), ("symbol", .vstr "BTCUSDT")]
    persisted_config := [("loop_interval_seconds", .vnum 10), ("symbol", .vstr "BTCUSDT")] }

/-- Claim C5, counterexample: a `parameter_update` message on the
learning_module channel with matching `agent_id` leaves the
runtime-parameter map untouched — the next tick still sleeps 10
seconds, not the suggested 2 — because the handler only logs the
suggestion (the `_adapt_parameters` call is commented out). -/
theorem claim_C5_counterexample :
    BaseStrategy.handle_comm_message 1 none workerParams0 suggestionMsg = workerParams0 ∧
    BaseStrategy.loop_interval
      (BaseStrategy.handle_comm_message 1 none workerParams0 suggestionMsg) = .vnum 10 ∧
    ¬ BaseStrategy.loop_interval
      (BaseStrategy.handle_comm_message 1 none workerParams0 suggestionMsg) = .vnum 2 := by
  refine ⟨rfl, rfl, ?_⟩
  intro hcon
  have h10 : BaseStrategy.loop_interval
      (BaseStrategy.handle_comm_message 1 none workerParams0 suggestionMsg) = .vnum 10 := rfl
  rw [h10] at hcon
  injection hcon with h
  norm_num at h

/-- Claim C5, amended: the handler for learning-module messages
validates the envelope and matches `agent_id`, but delegates to no
parameter-adaptation routine (the call is disabled in the source): for
every message it leaves the runtime-parameter map — and therefore the
next tick's loop interval — and the persisted config unchanged. -/
theorem claim_C5_handler_is_inert (selfId : Int) (gid : Option Int)
    (w : BaseStrategy.WorkerParams) (msg : BaseStrategy.Envelope) :
    BaseStrategy.handle_comm_message selfId gid w msg = w ∧
    BaseStrategy.loop_interval (BaseStrategy.handle_comm_message selfId gid w msg) =
      BaseStrategy.loop_interval w ∧
    (BaseStrategy.handle_comm_message selfId gid w msg).persisted_config =
      w.persisted_config := by
  have h : BaseStrategy.handle_comm_message selfId gid w msg = w := by
    unfold BaseStrategy.handle_comm_message
    rcases msg.type with _ | t <;> rcases msg.payload with _ | pl <;> try rfl
    dsimp only
    split_ifs <;> rfl
  exact ⟨h, by rw [h], by rw [h]⟩

namespace CommunicationBus

/-- Connection state of the bus: whether a live Redis client/pubsub
pair exists, and the channels registered (with their handlers) on the
CURRENT pubsub object. The source stores subscriptions nowhere else
(redis_pubsub.py:76), so a fresh pubsub starts with no channels. -/
structure BusState where
  connected : Bool
  channels : List String
deriving DecidableEq, Repr

/-- Embedding of `CommunicationBus._connect` (redis_pubsub.py:31-45): a
successful connection yields a fresh client and a FRESH pubsub object
with no channel registrations; a failure leaves both None. -/
def connect (success : Bool) : BusState :=
  { connected := success, channels := [] }

/-- Embedding of `CommunicationBus.subscribe` (redis_pubsub.py:69-85):
register the handler on the current pubsub when connected, else do
nothing. -/
def subscribe (st : BusState) (ch : String) : BusState :=
  if st.connected then { st with channels := st.channels ++ [ch] } else st

/-- Outcome of one `get_message(timeout=1.0)` poll. -/
inductive PollResult where
  | message | timeout | connectionLost
deriving DecidableEq, Repr

/-- One iteration of `CommunicationBus._listener_loop`
(redis_pubsub.py:98-129): when not ready, sleep 5s and reconnect — the
source only LOGS that resubscription logic is missing
(redis_pubsub.py:110), so the fresh pubsub keeps no channels; when a
poll raises ConnectionError, discard client and pubsub (losing the
registrations) and sleep 5s; otherwise continue. Returns the new state
and the seconds slept. -/
def listener_iteration (st : BusState) (reconnectOk : Bool)
    (poll : PollResult) : BusState × Nat :=
  if !st.connected then (connect reconnectOk, 5)
  else
    match poll with
    | .connectionLost => ({ connected := false, channels := [] }, 5)
    | _ => (st, 0)

end CommunicationBus

/-- Claim C7, counterexample: a bus subscribed to `learning_module`
loses that subscription across broker loss — after the connection drops
and the listener reconnects, the pubsub's channel set is empty, so the
handler is no longer registered (each retry slept the 5-second
backoff). -/
theorem claim_C7_counterexample :
    (CommunicationBus.subscribe (CommunicationBus.connect true)
      "learning_module").channels = ["learning_module"] ∧
    (CommunicationBus.listener_iteration
      (CommunicationBus.subscribe (CommunicationBus.connect true) "learning_module")
      true .connectionLost).2 = 5 ∧
    (CommunicationBus.listener_iteration
      (CommunicationBus.listener_iteration
        (CommunicationBus.subscribe (CommunicationBus.connect true) "learning_module")
        true .connectionLost).1 true .timeout).2 = 5 ∧
    (CommunicationBus.listener_iteration
      (CommunicationBus.listener_iteration
        (CommunicationBus.subscribe (CommunicationBus.connect true) "learning_module")
        true .connectionLost).1 true .timeout).1.connected = true ∧
    (CommunicationBus.listener_iteration
      (CommunicationBus.listener_iteration
        (CommunicationBus.subscribe (CommunicationBus.connect true) "learning_module")
        true .connectionLost).1 true .timeout).1.channels = [] :=
  ⟨rfl, rfl, rfl, rfl, rfl⟩

/-- Claim C7, amended: after broker loss the listener does retry the
connection with a 5-second (≥ 5s) backoff, but the subscriptions are
NOT re-registered: the reconnected bus's pubsub has an empty channel
set (the source acknowledges the resubscription logic is
unimplemented). -/
theorem claim_C7_reconnect_loses_subscriptions
    (st : CommunicationBus.BusState) (reconnectOk : Bool)
    (poll : CommunicationBus.PollResult) (h : st.connected = false) :
    CommunicationBus.listener_iteration st reconnectOk poll =
      (CommunicationBus.connect reconnectOk, 5) ∧
    (CommunicationBus.connect reconnectOk).channels = [] ∧ 5 ≤ 5 := by
  unfold CommunicationBus.listener_iteration
  rw [h]
  exact ⟨rfl, rfl, le_refl 5⟩

/-- Witness for the amended claim C7 at a concrete disconnected bus. -/
theorem claim_C7_witness :
    ({ connected := false, channels := [] } : CommunicationBus.BusState).connected
      = false ∧
    (CommunicationBus.listener_iteration
        { connected := false, channels := [] } true .timeout =
      (CommunicationBus.connect true, 5) ∧
    (CommunicationBus.connect true).channels = [] ∧ 5 ≤ 5) :=
  ⟨rfl, claim_C7_reconnect_loses_subscriptions
    { connected := false, channels := [] } true .timeout rfl⟩

namespace BaseStrategy

/-- The methods of `BaseStrategy` decorated `@abstractmethod`
(base_strategy.py:74-85): `_run_logic` and `_adapt_parameters`. -/
def abstractMethods : List String := ["_run_logic", "_adapt_parameters"]

end BaseStrategy

namespace GridStrategy

/-- The methods defined in class `GridStrategy` (grid_strategy.py).
`_adapt_parameters` is NOT among them: the class never overrides that
abstract method. -/
def definedMethods : List String :=
  ["__init__", "_validate_and_set_config", "_get_current_price",
   "_place_initial_orders", "_check_and_replace_orders",
   "_place_single_order", "_cancel_all_open_orders", "_run_logic",
   "start", "stop", "_simulate_get_order_status"]

/-- The abstract methods `GridStrategy` leaves unimplemented. Python's
ABC machinery refuses to instantiate the class while this list is
non-empty. -/
def unimplementedAbstractMethods : List String :=
  BaseStrategy.abstractMethods.filter
    (fun m => !(GridStrategy.definedMethods.contains m))

end GridStrategy

namespace AgentManager

/-- The `STRATEGY_MAP` of agent_manager.py:22-25: strategy kind to
strategy class name. -/
def STRATEGY_MAP : List (String × String) := [("grid", "GridStrategy")]

/-- The manager's `_running_agents` registry: agent id to the tracked
handle (abstracted to the strategy kind; the claims only consult
membership). -/
structure ManagerState where
  running_agents : List (String × String)
deriving DecidableEq, Repr

/-- Instantiating `StrategyClass(...)` for the grid kind
(agent_manager.py:87-93): Python raises `TypeError` BEFORE `__init__`
runs when the class still has unimplemented abstract methods; otherwise
`BaseStrategy.__init__` raises `ConnectionError` when the shared client
is not ready (base_strategy.py:34-38), and then
`_validate_and_set_config` validates the config
(grid_strategy.py:44). -/
def instantiateGridStrategy (clientReady : Bool)
    (config : List (String × PyVal)) : Except PyErr GridStrategy.GridParams :=
  if !GridStrategy.unimplementedAbstractMethods.isEmpty then
    .error (.typeError "cannot instantiate abstract class GridStrategy")
  else if !clientReady then
    .error (.connectionError "Binance client not ready")
  else
    GridStrategy.validateAndSetConfig config

/-- Embedding of `agent_manager.start_agent_process`
(agent_manager.py:59-119): refuse when the agent is already tracked;
look up the strategy class; refuse when the shared client is not ready;
open a fresh persistence session; instantiate and start the worker —
any exception closes the session and returns False; on success store
the handle and return True. -/
def start_agent_process (st : ManagerState) (clientReady : Bool)
    (agent_id : String) (strategy_type : String)
    (config : List (String × PyVal)) : ManagerState × Bool :=
  if (st.running_agents.find? (fun kv => kv.1 == agent_id)).isSome then
    (st, false)
  else
    match STRATEGY_MAP.find? (fun kv => kv.1 == strategy_type) with
    | none => (st, false)
    | some _ =>
      if !clientReady then (st, false)
      else
        match instantiateGridStrategy clientReady config with
        | .error _ => (st, false)
        | .ok _ =>
          ({ running_agents := st.running_agents ++ [(agent_id, strategy_type)] },
           true)

end AgentManager

/-- Claim C1 evaluation: starting a grid agent can NEVER succeed —
whatever the manager state, client readiness, agent id, or
configuration, `start_agent_process` returns False and stores no
handle, because `GridStrategy` never implements the abstract
`_adapt_parameters`, so instantiating it raises `TypeError`, which the
generic except clause turns into False. This contradicts the claim that
a valid configuration with a ready client and an untracked agent yields
True and an eventually-running agent. -/
theorem claim_C1_start_grid_agent_always_fails
    (st : AgentManager.ManagerState) (clientReady : Bool)
    (agent_id : String) (config : List (String × PyVal)) :
    AgentManager.start_agent_process st clientReady agent_id "grid" config =
      (st, false) := by
  have hinst : AgentManager.instantiateGridStrategy clientReady config =
      .error (.typeError "cannot instantiate abstract class GridStrategy") := by
    unfold AgentManager.instantiateGridStrategy
    rw [if_pos]
    show (!GridStrategy.unimplementedAbstractMethods.isEmpty) = true
    rfl
  unfold AgentManager.start_agent_process
  rw [hinst]
  have hmap : AgentManager.STRATEGY_MAP.find? (fun kv => kv.1 == "grid") =
      some ("grid", "GridStrategy") := rfl
  rw [hmap]
  by_cases htr : (st.running_agents.find? (fun kv => kv.1 == agent_id)).isSome
  · simp [htr]
  · simp only [htr]
    cases clientReady <;> rfl
